import Mathlib

/-!
Verification of the gRPC demo service (api.py, server.py).

The message schema (api.proto generated types) is embedded as Lean
structures; the server-side service `ApiServer` and client wrapper
`ApiClient` from api.py are embedded as pure functions.  The Python
iteration construct `range(1, length + 1)` is embedded by `pythonRange`,
a generator is embedded as the list of the values it yields, and the
wire transport is the identity, so a client call composed with the
service is function composition.
-/

/-- Schema message `Item`: one synthetic record with `id` and `name`. -/
structure Item where
  id : Int
  name : String
deriving DecidableEq, Repr

/-- Schema message `Items`: bulk response container. -/
structure Items where
  items : List Item
deriving DecidableEq, Repr

/-- Schema message `Hello`: output of the greeting call. -/
structure Hello where
  message : String
deriving DecidableEq, Repr

/-- Schema message `HelloRequest`: input to the greeting call. -/
structure HelloRequest where
  name : String
deriving DecidableEq, Repr

/-- Schema message `ApiRequest`: input to both list-fetch calls. -/
structure ApiRequest where
  length : Int
deriving DecidableEq, Repr

/-- Python `range(a, b)` with step 1: the integers `a, a+1, ..., b-1`,
empty whenever `b ≤ a`. -/
def pythonRange (a b : Int) : List Int :=
  (List.range (b - a).toNat).map fun (k : Nat) => a + (k : Int)

namespace ApiServer

/-- api.py lines 8-12: `getAll` starts from an empty list, appends
`Item(id=i, name=f'name {i}')` for each `i` in `range(1, length + 1)`,
and wraps the result in `Items`. -/
def getAll (request : ApiRequest) : Items :=
  Items.mk ((pythonRange 1 (request.length + 1)).foldl
    (fun data i => data ++ [Item.mk i ("name " ++ toString i)]) [])

/-- api.py lines 14-16: `getStream` yields `Item(id=i, name=f'name {i}')`
for each `i` in `range(1, length + 1)`; the generator is embedded as the
list of yielded items. -/
def getStream (request : ApiRequest) : List Item :=
  (pythonRange 1 (request.length + 1)).map fun i =>
    Item.mk i ("name " ++ toString i)

/-- api.py lines 18-19: `sayHello` returns `Hello(message=f'Hello {name}!')`. -/
def sayHello (request : HelloRequest) : Hello :=
  Hello.mk ("Hello " ++ request.name ++ "!")

end ApiServer

namespace ApiClient

/-- api.py lines 27-29: the client sends `HelloRequest(name=name)` and
returns the `message` field of the `Hello` response. -/
def sayHello (name : String) : String :=
  (ApiServer.sayHello (HelloRequest.mk name)).message

/-- api.py lines 31-33: the client sends `ApiRequest(length=length)` and
returns the `items` field of the `Items` response. -/
def getAll (length : Int) : List Item :=
  (ApiServer.getAll (ApiRequest.mk length)).items

/-- api.py lines 35-37: the client sends `ApiRequest(length=length)` and
returns the stream of items as received. -/
def getStream (length : Int) : List Item :=
  ApiServer.getStream (ApiRequest.mk length)

end ApiClient

/-- server.py line 11: `grpc.server(futures.ThreadPoolExecutor(max_workers=10))`,
the fixed size of the worker pool backing the RPC server. -/
def serveMaxWorkers : Nat := 10

/- ## Basic lemmas about the embedding -/

theorem foldl_append_singleton (f : Int → Item) :
    ∀ (xs : List Int) (acc : List Item),
      xs.foldl (fun data i => data ++ [f i]) acc = acc ++ xs.map f := by
  intro xs
  induction xs with
  | nil => intro acc; simp
  | cons x xs ih =>
      intro acc
      simp [List.foldl_cons, ih]

theorem getAll_items_eq_getStream (request : ApiRequest) :
    (ApiServer.getAll request).items = ApiServer.getStream request := by
  unfold ApiServer.getAll ApiServer.getStream
  rw [foldl_append_singleton]
  simp

theorem pythonRange_one_succ (l : Int) :
    pythonRange 1 (l + 1) = (List.range l.toNat).map fun (k : Nat) => 1 + (k : Int) := by
  unfold pythonRange
  simp

theorem getStream_eq_map_range (request : ApiRequest) :
    ApiServer.getStream request =
      (List.range request.length.toNat).map fun (k : Nat) =>
        Item.mk (1 + (k : Int)) ("name " ++ toString (1 + (k : Int))) := by
  unfold ApiServer.getStream
  rw [pythonRange_one_succ, List.map_map]
  rfl

theorem getStream_length (request : ApiRequest) :
    (ApiServer.getStream request).length = request.length.toNat := by
  rw [getStream_eq_map_range, List.length_map, List.length_range]

theorem getStream_getElem (request : ApiRequest) (i : Nat)
    (h : i < (ApiServer.getStream request).length) :
    (ApiServer.getStream request)[i] =
      Item.mk (1 + (i : Int)) ("name " ++ toString (1 + (i : Int))) := by
  have h2 : i < request.length.toNat := by rwa [getStream_length] at h
  rw [List.getElem_of_eq (getStream_eq_map_range request)]
  simp

theorem getStream_names_pure (request : ApiRequest) :
    ((ApiServer.getStream request).all fun it =>
      it.name == "name " ++ toString it.id) = true := by
  rw [getStream_eq_map_range, List.all_eq_true]
  intro it hit
  rw [List.mem_map] at hit
  obtain ⟨k, hk, rfl⟩ := hit
  exact beq_self_eq_true _

/- ## Claim theorems -/

/-- C1: for every integer `length ≥ 0`, `getAll(ApiRequest(length))` returns
`Items` with exactly `length` entries, the entry at index `i` has id `i + 1`
(so the ids are `1..length` in order), and every entry has
`name = "name " ++ toString id`. -/
theorem getAll_spec (length : Int) (h : 0 ≤ length) :
    (((ApiServer.getAll (ApiRequest.mk length)).items.length : Int) = length) ∧
    (ApiServer.getAll (ApiRequest.mk length)).items.map Item.id =
      (List.range length.toNat).map (fun (k : Nat) => (k : Int) + 1) ∧
    ((ApiServer.getAll (ApiRequest.mk length)).items.all fun it =>
      it.name == "name " ++ toString it.id) = true := by
  have hitems := getAll_items_eq_getStream (ApiRequest.mk length)
  refine ⟨?_, ?_, ?_⟩
  · rw [hitems, getStream_length]
    show ((length.toNat : Int) = length)
    exact Int.toNat_of_nonneg h
  · rw [hitems, getStream_eq_map_range, List.map_map]
    refine List.map_congr_left ?_
    intro k _
    simp [add_comm]
  · rw [hitems]
    exact getStream_names_pure _

/-- C1 witness at `length = 3`. -/
theorem getAll_spec_witness :
    (((ApiServer.getAll (ApiRequest.mk 3)).items.length : Int) = 3) ∧
    (ApiServer.getAll (ApiRequest.mk 3)).items.map Item.id =
      (List.range (3 : Int).toNat).map (fun (k : Nat) => (k : Int) + 1) ∧
    ((ApiServer.getAll (ApiRequest.mk 3)).items.all fun it =>
      it.name == "name " ++ toString it.id) = true :=
  getAll_spec 3 (by decide)

/-- C2: for every string `name`, `sayHello(HelloRequest(name))` returns a
`Hello` whose `message` is `"Hello " ++ name ++ "!"`; the operation is a
total function, so it always succeeds. -/
theorem sayHello_message (name : String) :
    (ApiServer.sayHello (HelloRequest.mk name)).message =
      "Hello " ++ name ++ "!" := rfl

/-- C3: for every integer `length ≥ 0`, the sequence of items yielded by
`getStream(ApiRequest(length))` equals, element for element and in order,
the `items` field of `getAll(ApiRequest(length))`. -/
theorem getStream_refines_getAll (length : Int) (_h : 0 ≤ length) :
    ApiServer.getStream (ApiRequest.mk length) =
      (ApiServer.getAll (ApiRequest.mk length)).items :=
  (getAll_items_eq_getStream _).symm

/-- C3 witness at `length = 2`. -/
theorem getStream_refines_getAll_witness :
    ApiServer.getStream (ApiRequest.mk 2) =
      (ApiServer.getAll (ApiRequest.mk 2)).items :=
  getStream_refines_getAll 2 (by decide)

/-- C4: for every integer `length < 0`, `getAll` returns an empty `Items`
and `getStream` yields nothing; neither raises (both are total functions,
and `range(1, length + 1)` is empty). -/
theorem negative_length_empty (length : Int) (h : length < 0) :
    ApiServer.getAll (ApiRequest.mk length) = Items.mk [] ∧
    ApiServer.getStream (ApiRequest.mk length) = [] := by
  have hn : length.toNat = 0 := Int.toNat_of_nonpos h.le
  have hs : ApiServer.getStream (ApiRequest.mk length) = [] := by
    rw [getStream_eq_map_range]
    simp [hn]
  exact ⟨congrArg Items.mk ((getAll_items_eq_getStream _).trans hs), hs⟩

/-- C4 witness at `length = -1`. -/
theorem negative_length_empty_witness :
    ApiServer.getAll (ApiRequest.mk (-1)) = Items.mk [] ∧
    ApiServer.getStream (ApiRequest.mk (-1)) = [] :=
  negative_length_empty (-1) (by decide)

/-- C5: at `length = 0` both operations succeed and produce zero items. -/
theorem zero_length_empty :
    (ApiServer.getAll (ApiRequest.mk 0)).items = [] ∧
    ApiServer.getStream (ApiRequest.mk 0) = [] := by
  constructor <;> rfl

/-- C6: every operation is deterministic — two invocations on the same
request value give identical results (the embedding has no hidden state,
randomness, or external input) — and each item name is the pure function
`"name " ++ toString id` of its id, on both `getAll` and `getStream`. -/
theorem service_deterministic :
    (∀ request : HelloRequest,
      ApiServer.sayHello request = ApiServer.sayHello request) ∧
    (∀ request : ApiRequest,
      ApiServer.getAll request = ApiServer.getAll request) ∧
    (∀ request : ApiRequest,
      ApiServer.getStream request = ApiServer.getStream request) ∧
    (∀ request : ApiRequest,
      ((ApiServer.getAll request).items.all fun it =>
        it.name == "name " ++ toString it.id) = true ∧
      ((ApiServer.getStream request).all fun it =>
        it.name == "name " ++ toString it.id) = true) := by
  refine ⟨fun _ => rfl, fun _ => rfl, fun _ => rfl, fun request => ⟨?_, ?_⟩⟩
  · rw [getAll_items_eq_getStream]
    exact getStream_names_pure request
  · exact getStream_names_pure request

/-- C7: within one `getStream` result, ids are strictly increasing: at any
positions `j < k` of the yielded sequence, the item at `j` has a strictly
smaller id than the item at `k`. -/
theorem getStream_ids_strict_mono (length : Int) (j k : Nat)
    (hjk : j < k)
    (hj : j < (ApiServer.getStream (ApiRequest.mk length)).length)
    (hk : k < (ApiServer.getStream (ApiRequest.mk length)).length) :
    (ApiServer.getStream (ApiRequest.mk length))[j].id <
      (ApiServer.getStream (ApiRequest.mk length))[k].id := by
  rw [getStream_getElem (ApiRequest.mk length) j hj,
      getStream_getElem (ApiRequest.mk length) k hk]
  simp only []
  omega

/-- C7 witness at `length = 3`, positions `0 < 2`. -/
theorem getStream_ids_strict_mono_witness :
    0 < 2 ∧ 0 < (ApiServer.getStream (ApiRequest.mk 3)).length ∧
    2 < (ApiServer.getStream (ApiRequest.mk 3)).length ∧
    (ApiServer.getStream (ApiRequest.mk 3))[0].id <
      (ApiServer.getStream (ApiRequest.mk 3))[2].id :=
  ⟨by decide, by decide, by decide,
    getStream_ids_strict_mono 3 0 2 (by decide) (by decide) (by decide)⟩

/-- C8: the client returns exactly the `message` field of the `Hello`
response and exactly the `items` field of the `Items` response; composed
with the service, `sayHello name` is `"Hello " ++ name ++ "!"` and
`getAll length` is the item sequence of the service. -/
theorem client_mirrors_service :
    (∀ name : String,
      ApiClient.sayHello name =
        (ApiServer.sayHello (HelloRequest.mk name)).message ∧
      ApiClient.sayHello name = "Hello " ++ name ++ "!") ∧
    (∀ length : Int,
      ApiClient.getAll length =
        (ApiServer.getAll (ApiRequest.mk length)).items) :=
  ⟨fun _ => ⟨rfl, rfl⟩, fun _ => rfl⟩

/-- C10: for `0 ≤ m ≤ n`, `getAll(m).items` is exactly the first `m`
elements of `getAll(n).items`, so each item at a given position does not
depend on the requested length. -/
theorem getAll_take_of_le (m n : Int) (_h0 : 0 ≤ m) (hmn : m ≤ n) :
    (ApiServer.getAll (ApiRequest.mk m)).items =
      (ApiServer.getAll (ApiRequest.mk n)).items.take m.toNat := by
  rw [getAll_items_eq_getStream, getAll_items_eq_getStream,
      getStream_eq_map_range, getStream_eq_map_range]
  show (List.range m.toNat).map _ = ((List.range n.toNat).map _).take m.toNat
  rw [← List.map_take, List.take_range,
      Nat.min_eq_left (Int.toNat_le_toNat hmn)]

/-- C10 witness at `m = 2`, `n = 5`. -/
theorem getAll_take_of_le_witness :
    (ApiServer.getAll (ApiRequest.mk 2)).items =
      (ApiServer.getAll (ApiRequest.mk 5)).items.take (2 : Int).toNat :=
  getAll_take_of_le 2 5 (by decide) (by decide)
